import Mathlib

/-!
Shallow embedding of the ruby-hdfs native extension (ext/hdfs) and proofs
about its resource-lifecycle and error-mapping layer.

Conventions of the embedding:

* Ruby exception classes raised by the extension are modelled by the
  inductive type RubyError; rb_raise is modelled as returning Except.error
  (the C functions return immediately after rb_raise, so raising is a
  control-flow exit).
* Native libhdfs handles (hdfsFS, hdfsFile) are opaque pointers; they are
  modelled as Nat and a NULL pointer as Option.none.
* Calls into libhdfs are modelled by an explicit oracle structure of pure
  functions (NativeFileLib for the file calls, NativeHdfsLib for the
  filesystem calls), and every wrapper operation additionally returns the
  list of native calls it performed, so that the absence of a native call
  is a provable statement.
* C int arithmetic in the permission helpers is modelled on Nat: the
  permission values concerned are nonnegative and small, C / and % agree
  with Nat division and remainder on nonnegative operands, and pow(8, i)
  is exact in double precision for the ranges involved.
-/

namespace RubyHdfs

/-- Exception classes registered by the extension (file.c, file_system.c
and the legacy hdfs.c revision), plus the Ruby builtin classes it raises
(ArgumentError, TypeError).  The extension registers FileClosedError as a
subclass of FileError, and DoesNotExistError under the legacy hierarchy;
here each class is a distinct tag. -/
inductive RubyError where
  | dfsException
  | connectError
  | couldNotOpenFileError
  | notConnectedError
  | fileError
  | fileClosedError
  | doesNotExistError
  | argError
  | typeError
  deriving DecidableEq, Repr

/-! ## utils.c: permission encoding helpers -/

/-- Loop of decimal_octal (utils.c): while (n != 0) { rem = n % 8;
n /= 8; octal += rem * i; i *= 10; }.  The fuel argument bounds the
iteration count; n itself is always enough fuel since n shrinks by / 8
every iteration. -/
def decimal_octal_go : Nat → Nat → Nat → Nat → Nat
  | 0, _, _, octal => octal
  | fuel + 1, n, i, octal =>
    if n = 0 then octal
    else decimal_octal_go fuel (n / 8) (i * 10) (octal + n % 8 * i)

/-- decimal_octal (utils.c): rewrites the base-8 digits of n as a base-10
numeral (e.g. 420 = octal 0644 becomes the decimal number 644). -/
def decimal_octal (n : Nat) : Nat :=
  decimal_octal_go n n 1 0

/-- Loop of octal_decimal (utils.c): while (n != 0) { rem = n % 10;
n /= 10; decimal += rem * pow(8, i); ++i; }.  pow(8, i) is exact in
double for the ranges involved, so Nat exponentiation is faithful. -/
def octal_decimal_go : Nat → Nat → Nat → Nat → Nat
  | 0, _, _, decimal => decimal
  | fuel + 1, n, i, decimal =>
    if n = 0 then decimal
    else octal_decimal_go fuel (n / 10) (i + 1) (decimal + n % 10 * 8 ^ i)

/-- octal_decimal (utils.c): reads the base-10 digits of n as base-8
digits (e.g. 644 becomes 420 = octal 0644). -/
def octal_decimal (n : Nat) : Nat :=
  octal_decimal_go n n 0 0

/-! ## constants.h -/

/-- HDFS_DEFAULT_BUFFER_SIZE (constants.h): the fixed read cap. -/
def HDFS_DEFAULT_BUFFER_SIZE : Int := 131072

/-- HDFS_DEFAULT_MODE (constants.h): the C literal 0644 is octal, so the
stored value is 420. -/
def HDFS_DEFAULT_MODE : Nat := 420

/-- HDFS_DEFAULT_RECURSIVE_DELETE (constants.h). -/
def HDFS_DEFAULT_RECURSIVE_DELETE : Int := 0

/-- HDFS_DEFAULT_REPLICATION (constants.h). -/
def HDFS_DEFAULT_REPLICATION : Int := 3

/-! ## External libhdfs data (hdfs.h of the wrapped library) -/

/-- Constant of the external libhdfs enum tObjectKind:
kObjectKindFile = 'F'.  Only distinctness from the directory tag matters
to the binding. -/
def kObjectKindFile : Int := 70

/-- Constant of the external libhdfs enum tObjectKind:
kObjectKindDirectory = 'D'. -/
def kObjectKindDirectory : Int := 68

/-- Native hdfsFileInfo record produced by libhdfs; transient memory owned
by the library, so the binding must copy every field out of it. -/
structure hdfsFileInfo where
  mName : String
  mLastMod : Int
  mSize : Int
  mReplication : Int
  mBlockSize : Int
  mOwner : String
  mGroup : String
  mPermissions : Nat
  mLastAccess : Int
  mKind : Int
  deriving DecidableEq, Repr

/-! ## file_info.c: the Metadata snapshot -/

/-- FileInfo struct of file_info.c: the copied snapshot (strdup of the
string fields, scalar copies).  mKind is not stored; it only selects the
Ruby class of the wrapper. -/
structure FileInfo where
  mName : String
  mLastMod : Int
  mSize : Int
  mReplication : Int
  mBlockSize : Int
  mOwner : String
  mGroup : String
  mPermissions : Nat
  mLastAccess : Int
  deriving DecidableEq, Repr

/-- Ruby class assigned to a FileInfo wrapper by new_HDFS_File_Info:
HDFS::FileInfo::File or HDFS::FileInfo::Directory. -/
inductive FileInfoClass where
  | fileInfoFile
  | fileInfoDirectory
  deriving DecidableEq, Repr

/-- A wrapped FileInfo object: its Ruby class together with the copied
snapshot. -/
structure FileInfoObj where
  cls : FileInfoClass
  info : FileInfo
  deriving DecidableEq, Repr

/-- new_HDFS_File_Info (file_info.c): copies every field out of the native
record and switches on mKind; the Directory and File kinds select the two
wrapper classes and any other value raises rb_eTypeError. -/
def new_HDFS_File_Info (info : hdfsFileInfo) : Except RubyError FileInfoObj :=
  let copied : FileInfo :=
    { mName := info.mName, mLastMod := info.mLastMod, mSize := info.mSize,
      mReplication := info.mReplication, mBlockSize := info.mBlockSize,
      mOwner := info.mOwner, mGroup := info.mGroup,
      mPermissions := info.mPermissions, mLastAccess := info.mLastAccess }
  if info.mKind = kObjectKindDirectory then
    Except.ok { cls := FileInfoClass.fileInfoDirectory, info := copied }
  else if info.mKind = kObjectKindFile then
    Except.ok { cls := FileInfoClass.fileInfoFile, info := copied }
  else
    Except.error RubyError.typeError

/-- Dispatch of the is_directory? method (file_info.c): the Directory
subclass overrides it to return Qtrue; the base class method, inherited by
the File subclass, returns Qfalse. -/
def HDFS_File_Info_is_directory (obj : FileInfoObj) : Bool :=
  match obj.cls with
  | FileInfoClass.fileInfoDirectory => true
  | FileInfoClass.fileInfoFile => false

/-- Dispatch of the is_file? method (file_info.c): the File subclass
overrides it to return Qtrue; the base class method, inherited by the
Directory subclass, returns Qfalse. -/
def HDFS_File_Info_is_file (obj : FileInfoObj) : Bool :=
  match obj.cls with
  | FileInfoClass.fileInfoDirectory => false
  | FileInfoClass.fileInfoFile => true

/-- Accessor mode (file_info.c): exposes the stored decimal-encoded-octal
permissions via decimal_octal. -/
def HDFS_File_Info_mode (obj : FileInfoObj) : Nat :=
  decimal_octal obj.info.mPermissions

/-! ## file.c: the Stream wrapper -/

/-- FileData struct of file.c together with the path ivar set by
new_HDFS_File; file = none models a NULL hdfsFile, i.e. a closed
stream. -/
structure FileData where
  fs : Nat
  file : Option Nat
  path : String
  deriving DecidableEq, Repr

/-- One native libhdfs file call performed by a wrapper operation. -/
inductive FileEvent where
  | closeCall
  | readCall
  | preadCall
  | writeCall
  | seekCall
  | tellCall
  | flushCall
  | hflushCall
  | availableCall
  | readOpenCall
  | writeOpenCall
  deriving DecidableEq, Repr

/-- Oracle for the libhdfs file calls used by file.c.  Int results follow
the library convention that -1 signals failure; the read calls also
return the bytes the library put in the caller's buffer. -/
structure NativeFileLib where
  hdfsCloseFile : Nat → Nat → Int
  hdfsRead : Nat → Nat → Int → Int × List Nat
  hdfsPread : Nat → Nat → Int → Int → Int × List Nat
  hdfsWrite : Nat → Nat → List Nat → Int
  hdfsSeek : Nat → Nat → Int → Int
  hdfsTell : Nat → Nat → Int
  hdfsFlush : Nat → Nat → Int
  hdfsHFlush : Nat → Nat → Int
  hdfsAvailable : Nat → Nat → Int
  hdfsFileIsOpenForRead : Nat → Bool
  hdfsFileIsOpenForWrite : Nat → Bool

/-- Result of a Stream wrapper call: the Ruby-level outcome, the possibly
updated FileData struct, and the native calls performed. -/
def FileRet (α : Type) : Type :=
  Except RubyError α × FileData × List FileEvent

/-- HDFS_File_close (file.c): a NULL handle yields Qtrue with no native
call; otherwise hdfsCloseFile is called; -1 raises FileError and leaves
the handle untouched, success nulls the handle and yields Qtrue. -/
def HDFS_File_close (lib : NativeFileLib) (data : FileData) : FileRet Bool :=
  match data.file with
  | none => (Except.ok true, data, [])
  | some f =>
    if lib.hdfsCloseFile data.fs f = -1 then
      (Except.error RubyError.fileError, data, [FileEvent.closeCall])
    else
      (Except.ok true, { data with file := none }, [FileEvent.closeCall])

/-- HDFS_File_read (file.c): get_FileData first raises FileClosedError on
a NULL handle; then a request above HDFS_DEFAULT_BUFFER_SIZE raises
FileError before any native read; otherwise hdfsRead is called and -1
raises FileError. -/
def HDFS_File_read (lib : NativeFileLib) (data : FileData) (length : Option Int) :
    FileRet (List Nat) :=
  match data.file with
  | none => (Except.error RubyError.fileClosedError, data, [])
  | some f =>
    let hdfsLength : Int :=
      match length with
      | none => HDFS_DEFAULT_BUFFER_SIZE
      | some l => l
    if HDFS_DEFAULT_BUFFER_SIZE < hdfsLength then
      (Except.error RubyError.fileError, data, [])
    else
      let r := lib.hdfsRead data.fs f hdfsLength
      if r.1 = -1 then
        (Except.error RubyError.fileError, data, [FileEvent.readCall])
      else
        (Except.ok (r.2.take r.1.toNat), data, [FileEvent.readCall])

/-- HDFS_File_read_pos (file.c): positional variant of read via hdfsPread;
same closed-handle check, length cap and failure mapping. -/
def HDFS_File_read_pos (lib : NativeFileLib) (data : FileData) (position : Int)
    (length : Option Int) : FileRet (List Nat) :=
  match data.file with
  | none => (Except.error RubyError.fileClosedError, data, [])
  | some f =>
    let hdfsLength : Int :=
      match length with
      | none => HDFS_DEFAULT_BUFFER_SIZE
      | some l => l
    if HDFS_DEFAULT_BUFFER_SIZE < hdfsLength then
      (Except.error RubyError.fileError, data, [])
    else
      let r := lib.hdfsPread data.fs f position hdfsLength
      if r.1 = -1 then
        (Except.error RubyError.fileError, data, [FileEvent.preadCall])
      else
        (Except.ok (r.2.take r.1.toNat), data, [FileEvent.preadCall])

/-- HDFS_File_write (file.c): closed-handle check, then hdfsWrite; -1
raises FileError, otherwise the count written is returned. -/
def HDFS_File_write (lib : NativeFileLib) (data : FileData) (bytes : List Nat) :
    FileRet Int :=
  match data.file with
  | none => (Except.error RubyError.fileClosedError, data, [])
  | some f =>
    let w := lib.hdfsWrite data.fs f bytes
    if w = -1 then
      (Except.error RubyError.fileError, data, [FileEvent.writeCall])
    else
      (Except.ok w, data, [FileEvent.writeCall])

/-- HDFS_File_seek (file.c). -/
def HDFS_File_seek (lib : NativeFileLib) (data : FileData) (offset : Int) :
    FileRet Bool :=
  match data.file with
  | none => (Except.error RubyError.fileClosedError, data, [])
  | some f =>
    if lib.hdfsSeek data.fs f offset = -1 then
      (Except.error RubyError.fileError, data, [FileEvent.seekCall])
    else
      (Except.ok true, data, [FileEvent.seekCall])

/-- HDFS_File_tell (file.c). -/
def HDFS_File_tell (lib : NativeFileLib) (data : FileData) : FileRet Int :=
  match data.file with
  | none => (Except.error RubyError.fileClosedError, data, [])
  | some f =>
    let offset := lib.hdfsTell data.fs f
    if offset = -1 then
      (Except.error RubyError.fileError, data, [FileEvent.tellCall])
    else
      (Except.ok offset, data, [FileEvent.tellCall])

/-- HDFS_File_flush (file.c). -/
def HDFS_File_flush (lib : NativeFileLib) (data : FileData) : FileRet Bool :=
  match data.file with
  | none => (Except.error RubyError.fileClosedError, data, [])
  | some f =>
    if lib.hdfsFlush data.fs f = -1 then
      (Except.error RubyError.fileError, data, [FileEvent.flushCall])
    else
      (Except.ok true, data, [FileEvent.flushCall])

/-- HDFS_File_hflush (file.c). -/
def HDFS_File_hflush (lib : NativeFileLib) (data : FileData) : FileRet Bool :=
  match data.file with
  | none => (Except.error RubyError.fileClosedError, data, [])
  | some f =>
    if lib.hdfsHFlush data.fs f = -1 then
      (Except.error RubyError.fileError, data, [FileEvent.hflushCall])
    else
      (Except.ok true, data, [FileEvent.hflushCall])

/-- HDFS_File_available (file.c). -/
def HDFS_File_available (lib : NativeFileLib) (data : FileData) : FileRet Int :=
  match data.file with
  | none => (Except.error RubyError.fileClosedError, data, [])
  | some f =>
    let bytes_available := lib.hdfsAvailable data.fs f
    if bytes_available = -1 then
      (Except.error RubyError.fileError, data, [FileEvent.availableCall])
    else
      (Except.ok bytes_available, data, [FileEvent.availableCall])

/-- HDFS_File_read_open (file.c): pure query; returns false without a
native call when the handle is NULL, never raises. -/
def HDFS_File_read_open (lib : NativeFileLib) (data : FileData) : FileRet Bool :=
  match data.file with
  | none => (Except.ok false, data, [])
  | some f => (Except.ok (lib.hdfsFileIsOpenForRead f), data, [FileEvent.readOpenCall])

/-- HDFS_File_write_open (file.c): pure query; returns false without a
native call when the handle is NULL, never raises. -/
def HDFS_File_write_open (lib : NativeFileLib) (data : FileData) : FileRet Bool :=
  match data.file with
  | none => (Except.ok false, data, [])
  | some f => (Except.ok (lib.hdfsFileIsOpenForWrite f), data, [FileEvent.writeOpenCall])

/-! ## file_system.c: the Connection wrapper -/

/-- FSData struct of file_system.c; fs = none models a NULL hdfsFS, i.e. a
disconnected (or never connected) client. -/
structure FSData where
  fs : Option Nat
  deriving DecidableEq, Repr

/-- One native libhdfs filesystem call performed by a wrapper operation. -/
inductive FSEvent where
  | deleteCall
  | disconnectCall
  | capacityCall
  | setWdCall
  | chownCall
  | chmodCall
  | copyCall
  | getWdCall
  | blockSizeCall
  | blockSizeAtPathCall
  | existsCall
  | getHostsCall
  | listDirCall
  | moveCall
  | mkdirCall
  | openCall
  | renameCall
  | setReplicationCall
  | statCall
  | usedCall
  | utimeCall
  deriving DecidableEq, Repr

/-- Oracle for the libhdfs filesystem calls used by file_system.c.  Int
results use the sentinel conventions of the library (-1 or negative for
failure); pointer results are Options with none for NULL.  The destination
filesystem of copy and move may itself be NULL when the destination
wrapper is disconnected, hence the Option argument there. -/
structure NativeHdfsLib where
  hdfsDelete : Nat → String → Int → Int
  hdfsDisconnect : Nat → Int
  hdfsGetCapacity : Nat → Int
  hdfsSetWorkingDirectory : Nat → String → Int
  hdfsChown : Nat → String → Option String → Option String → Int
  hdfsChmod : Nat → String → Nat → Int
  hdfsCopy : Nat → String → Option Nat → String → Int
  hdfsGetWorkingDirectory : Nat → Option String
  hdfsGetDefaultBlockSize : Nat → Int
  hdfsGetDefaultBlockSizeAtPath : Nat → String → Int
  hdfsExists : Nat → String → Int
  hdfsGetHosts : Nat → String → Int → Int → Option (List (List String))
  hdfsListDirectory : Nat → String → Option (List hdfsFileInfo) × Int
  hdfsMove : Nat → String → Option Nat → String → Int
  hdfsCreateDirectory : Nat → String → Int
  hdfsOpenFile : Nat → String → Nat → Int → Int → Int → Option Nat
  hdfsRename : Nat → String → String → Int
  hdfsSetReplication : Nat → String → Int → Int
  hdfsGetPathInfo : Nat → String → Option hdfsFileInfo
  hdfsGetUsed : Nat → Int
  hdfsUtime : Nat → String → Int → Int → Int

/-- Result of a Connection wrapper call: the Ruby-level outcome, the
possibly updated FSData struct, and the native calls performed. -/
def FSRet (α : Type) : Type :=
  Except RubyError α × FSData × List FSEvent

/-- Ruby value passed as the to_fs argument of cp and mv: absent, another
FileSystem wrapper (whose own handle may be NULL), or a value of the
wrong Ruby class. -/
inductive ToFS where
  | noFS
  | fsObj (d : FSData)
  | wrongType
  deriving DecidableEq, Repr

/-- Ruby value passed as the options argument of utime: absent (treated
as an empty hash), a Hash with optional atime and mtime entries (Time
objects already converted to seconds), or a value of a non-Hash class. -/
inductive RubyOptions where
  | noOpts
  | hash (atime mtime : Option Int)
  | nonHash
  deriving DecidableEq, Repr

/-- O_RDONLY (fcntl.h). -/
def O_RDONLY : Nat := 0

/-- O_WRONLY (fcntl.h). -/
def O_WRONLY : Nat := 1

/-- O_APPEND (fcntl.h, Linux: octal 02000). -/
def O_APPEND : Nat := 1024

/-- HDFS_File_System_rm (file_system.c): get_FSData raises
NotConnectedError on a NULL handle, then hdfsDelete; -1 raises
DFSException. -/
def HDFS_File_System_rm (lib : NativeHdfsLib) (data : FSData) (path : String)
    (recursive : Option Bool) : FSRet Bool :=
  match data.fs with
  | none => (Except.error RubyError.notConnectedError, data, [])
  | some fs =>
    let hdfs_recursive : Int :=
      match recursive with
      | none => HDFS_DEFAULT_RECURSIVE_DELETE
      | some r => if r then 1 else 0
    if lib.hdfsDelete fs path hdfs_recursive = -1 then
      (Except.error RubyError.dfsException, data, [FSEvent.deleteCall])
    else
      (Except.ok true, data, [FSEvent.deleteCall])

/-- HDFS_File_System_disconnect (file_system.c): no connectedness check;
if the handle is non-NULL, hdfsDisconnect is called with its result
ignored and the handle nulled; always returns Qnil. -/
def HDFS_File_System_disconnect (lib : NativeHdfsLib) (data : FSData) : FSRet Unit :=
  match data.fs with
  | none => (Except.ok (), data, [])
  | some fs =>
    let _ := lib.hdfsDisconnect fs
    (Except.ok (), { data with fs := none }, [FSEvent.disconnectCall])

/-- HDFS_File_System_capacity (file_system.c): a negative native result
raises DFSException. -/
def HDFS_File_System_capacity (lib : NativeHdfsLib) (data : FSData) : FSRet Int :=
  match data.fs with
  | none => (Except.error RubyError.notConnectedError, data, [])
  | some fs =>
    let capacity := lib.hdfsGetCapacity fs
    if capacity < 0 then
      (Except.error RubyError.dfsException, data, [FSEvent.capacityCall])
    else
      (Except.ok capacity, data, [FSEvent.capacityCall])

/-- HDFS_File_System_cd (file_system.c). -/
def HDFS_File_System_cd (lib : NativeHdfsLib) (data : FSData) (path : String) :
    FSRet Bool :=
  match data.fs with
  | none => (Except.error RubyError.notConnectedError, data, [])
  | some fs =>
    if lib.hdfsSetWorkingDirectory fs path < 0 then
      (Except.error RubyError.dfsException, data, [FSEvent.setWdCall])
    else
      (Except.ok true, data, [FSEvent.setWdCall])

/-- HDFS_File_System_chgrp (file_system.c): hdfsChown with a NULL owner. -/
def HDFS_File_System_chgrp (lib : NativeHdfsLib) (data : FSData) (path group : String) :
    FSRet Bool :=
  match data.fs with
  | none => (Except.error RubyError.notConnectedError, data, [])
  | some fs =>
    if lib.hdfsChown fs path none (some group) = -1 then
      (Except.error RubyError.dfsException, data, [FSEvent.chownCall])
    else
      (Except.ok true, data, [FSEvent.chownCall])

/-- HDFS_File_System_chmod (file_system.c): a supplied mode is converted
by octal_decimal, a missing one defaults to HDFS_DEFAULT_MODE (already
decimal); -1 raises DFSException. -/
def HDFS_File_System_chmod (lib : NativeHdfsLib) (data : FSData) (path : String)
    (mode : Option Nat) : FSRet Bool :=
  match data.fs with
  | none => (Except.error RubyError.notConnectedError, data, [])
  | some fs =>
    let hdfs_mode : Nat :=
      match mode with
      | none => HDFS_DEFAULT_MODE
      | some m => octal_decimal m
    if lib.hdfsChmod fs path hdfs_mode = -1 then
      (Except.error RubyError.dfsException, data, [FSEvent.chmodCall])
    else
      (Except.ok true, data, [FSEvent.chmodCall])

/-- HDFS_File_System_chown (file_system.c): hdfsChown with a NULL group. -/
def HDFS_File_System_chown (lib : NativeHdfsLib) (data : FSData) (path owner : String) :
    FSRet Bool :=
  match data.fs with
  | none => (Except.error RubyError.notConnectedError, data, [])
  | some fs =>
    if lib.hdfsChown fs path (some owner) none = -1 then
      (Except.error RubyError.dfsException, data, [FSEvent.chownCall])
    else
      (Except.ok true, data, [FSEvent.chownCall])

/-- HDFS_File_System_cp (file_system.c): after the connectedness check, a
to_fs of the wrong Ruby class raises ArgumentError before the native call;
otherwise hdfsCopy runs against the destination handle (the current one
when to_fs is absent). -/
def HDFS_File_System_cp (lib : NativeHdfsLib) (data : FSData)
    (from_path to_path : String) (to_fs : ToFS) : FSRet Bool :=
  match data.fs with
  | none => (Except.error RubyError.notConnectedError, data, [])
  | some fs =>
    match to_fs with
    | ToFS.wrongType => (Except.error RubyError.argError, data, [])
    | ToFS.noFS =>
      if lib.hdfsCopy fs from_path (some fs) to_path = -1 then
        (Except.error RubyError.dfsException, data, [FSEvent.copyCall])
      else
        (Except.ok true, data, [FSEvent.copyCall])
    | ToFS.fsObj d =>
      if lib.hdfsCopy fs from_path d.fs to_path = -1 then
        (Except.error RubyError.dfsException, data, [FSEvent.copyCall])
      else
        (Except.ok true, data, [FSEvent.copyCall])

/-- HDFS_File_System_cwd (file_system.c): a NULL result from
hdfsGetWorkingDirectory raises DFSException. -/
def HDFS_File_System_cwd (lib : NativeHdfsLib) (data : FSData) : FSRet String :=
  match data.fs with
  | none => (Except.error RubyError.notConnectedError, data, [])
  | some fs =>
    match lib.hdfsGetWorkingDirectory fs with
    | none => (Except.error RubyError.dfsException, data, [FSEvent.getWdCall])
    | some cur_dir => (Except.ok cur_dir, data, [FSEvent.getWdCall])

/-- HDFS_File_System_default_block_size (file_system.c). -/
def HDFS_File_System_default_block_size (lib : NativeHdfsLib) (data : FSData) :
    FSRet Int :=
  match data.fs with
  | none => (Except.error RubyError.notConnectedError, data, [])
  | some fs =>
    let block_size := lib.hdfsGetDefaultBlockSize fs
    if block_size = -1 then
      (Except.error RubyError.dfsException, data, [FSEvent.blockSizeCall])
    else
      (Except.ok block_size, data, [FSEvent.blockSizeCall])

/-- HDFS_File_System_default_block_size_at_path (file_system.c). -/
def HDFS_File_System_default_block_size_at_path (lib : NativeHdfsLib) (data : FSData)
    (path : String) : FSRet Int :=
  match data.fs with
  | none => (Except.error RubyError.notConnectedError, data, [])
  | some fs =>
    let block_size := lib.hdfsGetDefaultBlockSizeAtPath fs path
    if block_size = -1 then
      (Except.error RubyError.dfsException, data, [FSEvent.blockSizeAtPathCall])
    else
      (Except.ok block_size, data, [FSEvent.blockSizeAtPathCall])

/-- HDFS_File_System_exist (file_system.c): Qtrue exactly when hdfsExists
returns 0; never raises beyond the connectedness check. -/
def HDFS_File_System_exist (lib : NativeHdfsLib) (data : FSData) (path : String) :
    FSRet Bool :=
  match data.fs with
  | none => (Except.error RubyError.notConnectedError, data, [])
  | some fs =>
    (Except.ok (lib.hdfsExists fs path = 0), data, [FSEvent.existsCall])

/-- HDFS_File_System_get_hosts (file_system.c): a NULL result raises
DFSException; otherwise the per-block host lists are marshalled out. -/
def HDFS_File_System_get_hosts (lib : NativeHdfsLib) (data : FSData) (path : String)
    (start length : Int) : FSRet (List (List String)) :=
  match data.fs with
  | none => (Except.error RubyError.notConnectedError, data, [])
  | some fs =>
    match lib.hdfsGetHosts fs path start length with
    | none => (Except.error RubyError.dfsException, data, [FSEvent.getHostsCall])
    | some hosts => (Except.ok hosts, data, [FSEvent.getHostsCall])

/-- HDFS_File_System_ls (file_system.c): num_files starts at -1; a NULL
info array with num_files still -1 raises DFSException, otherwise the
first num_files records are wrapped by new_HDFS_File_Info (whose
TypeError on a bad kind propagates). -/
def HDFS_File_System_ls (lib : NativeHdfsLib) (data : FSData) (path : String) :
    FSRet (List FileInfoObj) :=
  match data.fs with
  | none => (Except.error RubyError.notConnectedError, data, [])
  | some fs =>
    let r := lib.hdfsListDirectory fs path
    match r.1 with
    | none =>
      if r.2 = -1 then
        (Except.error RubyError.dfsException, data, [FSEvent.listDirCall])
      else
        (Except.ok [], data, [FSEvent.listDirCall])
    | some infos =>
      match (infos.take r.2.toNat).mapM new_HDFS_File_Info with
      | Except.error e => (Except.error e, data, [FSEvent.listDirCall])
      | Except.ok objs => (Except.ok objs, data, [FSEvent.listDirCall])

/-- HDFS_File_System_mv (file_system.c): same destination-handle handling
as cp, calling hdfsMove. -/
def HDFS_File_System_mv (lib : NativeHdfsLib) (data : FSData)
    (from_path to_path : String) (to_fs : ToFS) : FSRet Bool :=
  match data.fs with
  | none => (Except.error RubyError.notConnectedError, data, [])
  | some fs =>
    match to_fs with
    | ToFS.wrongType => (Except.error RubyError.argError, data, [])
    | ToFS.noFS =>
      if lib.hdfsMove fs from_path (some fs) to_path = -1 then
        (Except.error RubyError.dfsException, data, [FSEvent.moveCall])
      else
        (Except.ok true, data, [FSEvent.moveCall])
    | ToFS.fsObj d =>
      if lib.hdfsMove fs from_path d.fs to_path = -1 then
        (Except.error RubyError.dfsException, data, [FSEvent.moveCall])
      else
        (Except.ok true, data, [FSEvent.moveCall])

/-- HDFS_File_System_mkdir (file_system.c). -/
def HDFS_File_System_mkdir (lib : NativeHdfsLib) (data : FSData) (path : String) :
    FSRet Bool :=
  match data.fs with
  | none => (Except.error RubyError.notConnectedError, data, [])
  | some fs =>
    if lib.hdfsCreateDirectory fs path < 0 then
      (Except.error RubyError.dfsException, data, [FSEvent.mkdirCall])
    else
      (Except.ok true, data, [FSEvent.mkdirCall])

/-- HDFS_File_System_open (file_system.c): after the connectedness check a
supplied mode other than r, w or a raises rb_eArgError before any native
call; otherwise hdfsOpenFile runs with the mapped fcntl flags and the
RTEST-defaulted options, NULL raising CouldNotOpenFileError and success
wrapping a new HDFS::File around the handle. -/
def HDFS_File_System_open (lib : NativeHdfsLib) (data : FSData) (path : String)
    (mode : Option String) (buffer_size replication block_size : Option Int) :
    FSRet FileData :=
  match data.fs with
  | none => (Except.error RubyError.notConnectedError, data, [])
  | some fs =>
    let flags : Except RubyError Nat :=
      match mode with
      | none => Except.ok O_RDONLY
      | some m =>
        if m = "r" then Except.ok O_RDONLY
        else if m = "w" then Except.ok O_WRONLY
        else if m = "a" then Except.ok (Nat.lor O_WRONLY O_APPEND)
        else Except.error RubyError.argError
    match flags with
    | Except.error e => (Except.error e, data, [])
    | Except.ok fl =>
      match lib.hdfsOpenFile fs path fl (buffer_size.getD 0) (replication.getD 0)
          (block_size.getD 0) with
      | none => (Except.error RubyError.couldNotOpenFileError, data, [FSEvent.openCall])
      | some file =>
        (Except.ok { fs := fs, file := some file, path := path }, data,
          [FSEvent.openCall])

/-- HDFS_File_System_rename (file_system.c). -/
def HDFS_File_System_rename (lib : NativeHdfsLib) (data : FSData)
    (from_path to_path : String) : FSRet Bool :=
  match data.fs with
  | none => (Except.error RubyError.notConnectedError, data, [])
  | some fs =>
    if lib.hdfsRename fs from_path to_path = -1 then
      (Except.error RubyError.dfsException, data, [FSEvent.renameCall])
    else
      (Except.ok true, data, [FSEvent.renameCall])

/-- HDFS_File_System_set_replication (file_system.c): a missing value
defaults to HDFS_DEFAULT_REPLICATION. -/
def HDFS_File_System_set_replication (lib : NativeHdfsLib) (data : FSData)
    (path : String) (replication : Option Int) : FSRet Bool :=
  match data.fs with
  | none => (Except.error RubyError.notConnectedError, data, [])
  | some fs =>
    let hdfs_replication : Int :=
      match replication with
      | none => HDFS_DEFAULT_REPLICATION
      | some r => r
    if lib.hdfsSetReplication fs path hdfs_replication = -1 then
      (Except.error RubyError.dfsException, data, [FSEvent.setReplicationCall])
    else
      (Except.ok true, data, [FSEvent.setReplicationCall])

/-- HDFS_File_System_stat (file_system.c): a NULL hdfsGetPathInfo result
raises DFSException (the generic kind); success wraps the record. -/
def HDFS_File_System_stat (lib : NativeHdfsLib) (data : FSData) (path : String) :
    FSRet FileInfoObj :=
  match data.fs with
  | none => (Except.error RubyError.notConnectedError, data, [])
  | some fs =>
    match lib.hdfsGetPathInfo fs path with
    | none => (Except.error RubyError.dfsException, data, [FSEvent.statCall])
    | some info =>
      match new_HDFS_File_Info info with
      | Except.error e => (Except.error e, data, [FSEvent.statCall])
      | Except.ok obj => (Except.ok obj, data, [FSEvent.statCall])

/-- HDFS_File_System_used (file_system.c). -/
def HDFS_File_System_used (lib : NativeHdfsLib) (data : FSData) : FSRet Int :=
  match data.fs with
  | none => (Except.error RubyError.notConnectedError, data, [])
  | some fs =>
    let used := lib.hdfsGetUsed fs
    if used = -1 then
      (Except.error RubyError.dfsException, data, [FSEvent.usedCall])
    else
      (Except.ok used, data, [FSEvent.usedCall])

/-- HDFS_File_System_utime (file_system.c): after the connectedness check
a non-Hash options value raises ArgumentError before the native call;
missing atime and mtime default to the -1 sentinel. -/
def HDFS_File_System_utime (lib : NativeHdfsLib) (data : FSData) (path : String)
    (options : RubyOptions) : FSRet Bool :=
  match data.fs with
  | none => (Except.error RubyError.notConnectedError, data, [])
  | some fs =>
    match options with
    | RubyOptions.nonHash => (Except.error RubyError.argError, data, [])
    | RubyOptions.noOpts =>
      if lib.hdfsUtime fs path (-1) (-1) = -1 then
        (Except.error RubyError.dfsException, data, [FSEvent.utimeCall])
      else
        (Except.ok true, data, [FSEvent.utimeCall])
    | RubyOptions.hash r_atime r_mtime =>
      let hdfsAccessTime : Int := r_atime.getD (-1)
      let hdfsModifiedTime : Int := r_mtime.getD (-1)
      if lib.hdfsUtime fs path hdfsModifiedTime hdfsAccessTime = -1 then
        (Except.error RubyError.dfsException, data, [FSEvent.utimeCall])
      else
        (Except.ok true, data, [FSEvent.utimeCall])

/-! ## hdfs.c: the legacy single-file revision (Hadoop::DFS)

The repository also carries an earlier revision of the whole binding in
hdfs.c.  Its stat raises the dedicated DoesNotExistError on a NULL
hdfsGetPathInfo result, while its list_directory raises the generic
DFSException even though its own doc comment promises DoesNotExistError.
This revision performs no NULL-handle check: the possibly-NULL hdfsFS is
passed straight to libhdfs, so its oracle takes an Option handle. -/

namespace Legacy

/-- Oracle for the libhdfs calls used by the legacy stat and
list_directory of hdfs.c. -/
structure NativeHdfsLibL where
  hdfsGetPathInfo : Option Nat → String → Option hdfsFileInfo
  hdfsListDirectory : Option Nat → String → Option (List hdfsFileInfo) × Int

/-- wrap_hdfsFileInfo (hdfs.c): same copy-and-classify as
new_HDFS_File_Info, but the default branch of the kind switch raises the
generic e_dfs_exception instead of TypeError. -/
def wrap_hdfsFileInfo (info : hdfsFileInfo) : Except RubyError FileInfoObj :=
  let copied : FileInfo :=
    { mName := info.mName, mLastMod := info.mLastMod, mSize := info.mSize,
      mReplication := info.mReplication, mBlockSize := info.mBlockSize,
      mOwner := info.mOwner, mGroup := info.mGroup,
      mPermissions := info.mPermissions, mLastAccess := info.mLastAccess }
  if info.mKind = kObjectKindDirectory then
    Except.ok { cls := FileInfoClass.fileInfoDirectory, info := copied }
  else if info.mKind = kObjectKindFile then
    Except.ok { cls := FileInfoClass.fileInfoFile, info := copied }
  else
    Except.error RubyError.dfsException

/-- HDFS_File_System_stat (hdfs.c): a NULL hdfsGetPathInfo result raises
DoesNotExistError. -/
def HDFS_File_System_stat_legacy (lib : NativeHdfsLibL) (data : FSData)
    (path : String) : FSRet FileInfoObj :=
  match lib.hdfsGetPathInfo data.fs path with
  | none => (Except.error RubyError.doesNotExistError, data, [FSEvent.statCall])
  | some info =>
    match wrap_hdfsFileInfo info with
    | Except.error e => (Except.error e, data, [FSEvent.statCall])
    | Except.ok obj => (Except.ok obj, data, [FSEvent.statCall])

/-- HDFS_File_System_list_directory (hdfs.c): num_files starts at -1; a
NULL info array with num_files still -1 raises the generic DFSException,
although the doc comment of the function promises DoesNotExistError. -/
def HDFS_File_System_list_directory (lib : NativeHdfsLibL) (data : FSData)
    (path : String) : FSRet (List FileInfoObj) :=
  let r := lib.hdfsListDirectory data.fs path
  match r.1 with
  | none =>
    if r.2 = -1 then
      (Except.error RubyError.dfsException, data, [FSEvent.listDirCall])
    else
      (Except.ok [], data, [FSEvent.listDirCall])
  | some infos =>
    match (infos.take r.2.toNat).mapM wrap_hdfsFileInfo with
    | Except.error e => (Except.error e, data, [FSEvent.listDirCall])
    | Except.ok objs => (Except.ok objs, data, [FSEvent.listDirCall])

end Legacy

/-! ## Concrete oracles and structs used by witnesses and counterexamples -/

/-- Sample native file library with benign results. -/
def fileLib0 : NativeFileLib where
  hdfsCloseFile := fun _ _ => 0
  hdfsRead := fun _ _ _ => (0, [])
  hdfsPread := fun _ _ _ _ => (0, [])
  hdfsWrite := fun _ _ bytes => Int.ofNat bytes.length
  hdfsSeek := fun _ _ _ => 0
  hdfsTell := fun _ _ => 0
  hdfsFlush := fun _ _ => 0
  hdfsHFlush := fun _ _ => 0
  hdfsAvailable := fun _ _ => 0
  hdfsFileIsOpenForRead := fun _ => true
  hdfsFileIsOpenForWrite := fun _ => false

/-- Sample native file library whose close always fails with -1. -/
def failCloseLib : NativeFileLib :=
  { fileLib0 with hdfsCloseFile := fun _ _ => -1 }

/-- Sample native filesystem library with benign results. -/
def fsLib0 : NativeHdfsLib where
  hdfsDelete := fun _ _ _ => 0
  hdfsDisconnect := fun _ => 0
  hdfsGetCapacity := fun _ => 0
  hdfsSetWorkingDirectory := fun _ _ => 0
  hdfsChown := fun _ _ _ _ => 0
  hdfsChmod := fun _ _ _ => 0
  hdfsCopy := fun _ _ _ _ => 0
  hdfsGetWorkingDirectory := fun _ => some "/"
  hdfsGetDefaultBlockSize := fun _ => 0
  hdfsGetDefaultBlockSizeAtPath := fun _ _ => 0
  hdfsExists := fun _ _ => 0
  hdfsGetHosts := fun _ _ _ _ => some []
  hdfsListDirectory := fun _ _ => (some [], 0)
  hdfsMove := fun _ _ _ _ => 0
  hdfsCreateDirectory := fun _ _ => 0
  hdfsOpenFile := fun _ _ _ _ _ _ => some 1
  hdfsRename := fun _ _ _ => 0
  hdfsSetReplication := fun _ _ _ => 0
  hdfsGetPathInfo := fun _ _ => some ⟨"f", 0, 0, 0, 0, "o", "g", 420, 0, 70⟩
  hdfsGetUsed := fun _ => 0
  hdfsUtime := fun _ _ _ _ => 0

/-- Sample native filesystem library on which the queried path is absent:
stat and list calls signal failure the way libhdfs does for a missing
path. -/
def fsLibMissing : NativeHdfsLib :=
  { fsLib0 with
    hdfsGetPathInfo := fun _ _ => none
    hdfsListDirectory := fun _ _ => (none, -1) }

/-- Legacy oracle on which the queried path is absent. -/
def legacyLibMissing : Legacy.NativeHdfsLibL where
  hdfsGetPathInfo := fun _ _ => none
  hdfsListDirectory := fun _ _ => (none, -1)

/-- A closed stream struct (NULL file handle). -/
def closedFile0 : FileData := { fs := 0, file := none, path := "p" }

/-- An open stream struct. -/
def openFile0 : FileData := { fs := 0, file := some 1, path := "p" }

end RubyHdfs

namespace RubyHdfs

/-! ## Theorems for the permission helpers and the Metadata snapshot -/

set_option maxRecDepth 4000

/-- C1: for every 3-digit octal permission value p (0 <= p <= octal 777)
the conversion helpers are exact inverses, octal_decimal (decimal_octal p)
= p; and for every decimal-digit encoding d (at most 3 decimal digits,
each digit between 0 and 7), decimal_octal (octal_decimal d) = d. -/
theorem perm_conversion_roundtrip (p d : Nat) (hp : p < 512) (hd : d < 1000)
    (h1 : d % 10 < 8) (h2 : d / 10 % 10 < 8) (h3 : d / 100 < 8) :
    octal_decimal (decimal_octal p) = p ∧ decimal_octal (octal_decimal d) = d := by
  have hfst : ∀ q : Nat, q < 512 → octal_decimal (decimal_octal q) = q := by decide
  have hsnd : ∀ e : Nat, e < 1000 → e % 10 < 8 → e / 10 % 10 < 8 → e / 100 < 8 →
      decimal_octal (octal_decimal e) = e := by decide
  exact ⟨hfst p hp, hsnd d hd h1 h2 h3⟩

/-- C1 witness: the round trip evaluated at the permission 420 (octal
0644) and its decimal-digit encoding 644. -/
theorem perm_conversion_roundtrip_witness :
    octal_decimal (decimal_octal 420) = 420 ∧ decimal_octal (octal_decimal 644) = 644 :=
  perm_conversion_roundtrip 420 644 (by decide) (by decide) (by decide)
    (by decide) (by decide)

/-- C6: constructing a Metadata snapshot classifies mKind into exactly the
two variants: the directory kind yields a wrapper with is_directory true
and is_file false, the file kind yields is_file true and is_directory
false, and any other kind makes construction fail with TypeError rather
than defaulting. -/
theorem kind_classification (info : hdfsFileInfo) :
    (info.mKind = kObjectKindDirectory →
      ∃ obj, new_HDFS_File_Info info = Except.ok obj ∧
        HDFS_File_Info_is_directory obj = true ∧ HDFS_File_Info_is_file obj = false) ∧
    (info.mKind = kObjectKindFile →
      ∃ obj, new_HDFS_File_Info info = Except.ok obj ∧
        HDFS_File_Info_is_file obj = true ∧ HDFS_File_Info_is_directory obj = false) ∧
    (info.mKind ≠ kObjectKindDirectory → info.mKind ≠ kObjectKindFile →
      new_HDFS_File_Info info = Except.error RubyError.typeError) := by
  refine ⟨fun hdir => ?_, fun hfile => ?_, fun hnd hnf => ?_⟩
  · refine ⟨⟨FileInfoClass.fileInfoDirectory,
      { mName := info.mName, mLastMod := info.mLastMod, mSize := info.mSize,
        mReplication := info.mReplication, mBlockSize := info.mBlockSize,
        mOwner := info.mOwner, mGroup := info.mGroup,
        mPermissions := info.mPermissions, mLastAccess := info.mLastAccess }⟩,
      ?_, rfl, rfl⟩
    simp [new_HDFS_File_Info, hdir]
  · refine ⟨⟨FileInfoClass.fileInfoFile,
      { mName := info.mName, mLastMod := info.mLastMod, mSize := info.mSize,
        mReplication := info.mReplication, mBlockSize := info.mBlockSize,
        mOwner := info.mOwner, mGroup := info.mGroup,
        mPermissions := info.mPermissions, mLastAccess := info.mLastAccess }⟩,
      ?_, rfl, rfl⟩
    have hne : info.mKind ≠ kObjectKindDirectory := by
      rw [hfile]; decide
    simp [new_HDFS_File_Info, hfile, hne, kObjectKindFile, kObjectKindDirectory]
  · simp [new_HDFS_File_Info, hnd, hnf]

/-- C6 witness: classification evaluated on three concrete native records
with kinds directory ('D' = 68), file ('F' = 70) and an invalid kind 0. -/
theorem kind_classification_witness :
    (∃ obj, new_HDFS_File_Info
        ⟨"d", 0, 0, 0, 0, "o", "g", 420, 0, 68⟩ = Except.ok obj ∧
        HDFS_File_Info_is_directory obj = true ∧ HDFS_File_Info_is_file obj = false) ∧
    (∃ obj, new_HDFS_File_Info
        ⟨"f", 0, 0, 0, 0, "o", "g", 420, 0, 70⟩ = Except.ok obj ∧
        HDFS_File_Info_is_file obj = true ∧ HDFS_File_Info_is_directory obj = false) ∧
    new_HDFS_File_Info ⟨"x", 0, 0, 0, 0, "o", "g", 420, 0, 0⟩ =
      Except.error RubyError.typeError :=
  ⟨(kind_classification ⟨"d", 0, 0, 0, 0, "o", "g", 420, 0, 68⟩).1 rfl,
   (kind_classification ⟨"f", 0, 0, 0, 0, "o", "g", 420, 0, 70⟩).2.1 rfl,
   (kind_classification ⟨"x", 0, 0, 0, 0, "o", "g", 420, 0, 0⟩).2.2
     (by decide) (by decide)⟩

/-! ## Theorems for the Stream wrapper (file.c) -/

/-- C2: on a Stream whose native handle is NULL, each of read, read_pos,
write, seek, tell, flush, hflush and available raises FileClosedError,
leaves the struct unchanged and performs no native call. -/
theorem closed_stream_ops_raise_file_closed (lib : NativeFileLib) (data : FileData)
    (h : data.file = none) (len : Option Int) (pos : Int) (bytes : List Nat)
    (off : Int) :
    HDFS_File_read lib data len = (Except.error RubyError.fileClosedError, data, []) ∧
    HDFS_File_read_pos lib data pos len =
      (Except.error RubyError.fileClosedError, data, []) ∧
    HDFS_File_write lib data bytes =
      (Except.error RubyError.fileClosedError, data, []) ∧
    HDFS_File_seek lib data off = (Except.error RubyError.fileClosedError, data, []) ∧
    HDFS_File_tell lib data = (Except.error RubyError.fileClosedError, data, []) ∧
    HDFS_File_flush lib data = (Except.error RubyError.fileClosedError, data, []) ∧
    HDFS_File_hflush lib data = (Except.error RubyError.fileClosedError, data, []) ∧
    HDFS_File_available lib data =
      (Except.error RubyError.fileClosedError, data, []) := by
  obtain ⟨fs, file, path⟩ := data
  have hf : file = none := h
  subst hf
  exact ⟨rfl, rfl, rfl, rfl, rfl, rfl, rfl, rfl⟩

/-- C2 witness: the eight data operations evaluated on a concrete closed
stream. -/
theorem closed_stream_ops_witness :
    HDFS_File_read fileLib0 closedFile0 none =
      (Except.error RubyError.fileClosedError, closedFile0, []) ∧
    HDFS_File_read_pos fileLib0 closedFile0 0 none =
      (Except.error RubyError.fileClosedError, closedFile0, []) ∧
    HDFS_File_write fileLib0 closedFile0 [104, 105] =
      (Except.error RubyError.fileClosedError, closedFile0, []) ∧
    HDFS_File_seek fileLib0 closedFile0 0 =
      (Except.error RubyError.fileClosedError, closedFile0, []) ∧
    HDFS_File_tell fileLib0 closedFile0 =
      (Except.error RubyError.fileClosedError, closedFile0, []) ∧
    HDFS_File_flush fileLib0 closedFile0 =
      (Except.error RubyError.fileClosedError, closedFile0, []) ∧
    HDFS_File_hflush fileLib0 closedFile0 =
      (Except.error RubyError.fileClosedError, closedFile0, []) ∧
    HDFS_File_available fileLib0 closedFile0 =
      (Except.error RubyError.fileClosedError, closedFile0, []) :=
  closed_stream_ops_raise_file_closed fileLib0 closedFile0 rfl none 0 [104, 105] 0

/-- C3 counterexample: the claim that after a successful open a second
close in sequence never raises is false when the native close fails.
Opening a stream in read mode against a library whose hdfsOpenFile
succeeds yields the stream struct with handle 1; against a native close
that always returns -1, the first close raises FileError and leaves the
stream open, and the second close raises FileError again. -/
theorem close_twice_second_raises_cex :
    (HDFS_File_System_open fsLib0 ⟨some 5⟩ "x" (some "r") none none none).1 =
      Except.ok ⟨5, some 1, "x"⟩ ∧
    (HDFS_File_close failCloseLib ⟨5, some 1, "x"⟩).1 =
      Except.error RubyError.fileError ∧
    (HDFS_File_close failCloseLib
        (HDFS_File_close failCloseLib ⟨5, some 1, "x"⟩).2.1).1 =
      Except.error RubyError.fileError :=
  ⟨rfl, rfl, rfl⟩

/-- C3 (amended): close on a Stream already in the Closed state performs
no native call, raises nothing and returns success; and whenever a close
returns successfully, a further close is such a no-op — so after a
successful open, if the first close succeeds the second close never
raises. -/
theorem close_idempotent_on_closed (lib : NativeFileLib) (data : FileData) :
    (data.file = none → HDFS_File_close lib data = (Except.ok true, data, [])) ∧
    (∀ b d es, HDFS_File_close lib data = (Except.ok b, d, es) →
      HDFS_File_close lib d = (Except.ok true, d, [])) := by
  obtain ⟨fs, file, path⟩ := data
  constructor
  · intro h
    have hf : file = none := h
    subst hf
    rfl
  · intro b d es h
    cases file with
    | none =>
      have hd : d = ⟨fs, none, path⟩ := congrArg (fun t => t.2.1) h.symm
      subst hd
      rfl
    | some f =>
      by_cases hc : lib.hdfsCloseFile fs f = -1
      · exact absurd (congrArg (fun t => t.1) h)
          (by simp [HDFS_File_close, hc])
      · have hd : d = ⟨fs, none, path⟩ := by
          have := congrArg (fun t => t.2.1) h
          simpa [HDFS_File_close, hc] using this.symm
        subst hd
        rfl

/-- C3 witness: close evaluated on a concrete closed stream, and the
second close after a successful first close of a concrete open stream. -/
theorem close_idempotent_witness :
    HDFS_File_close fileLib0 closedFile0 = (Except.ok true, closedFile0, []) ∧
    HDFS_File_close fileLib0 ⟨0, none, "p"⟩ =
      (Except.ok true, ⟨0, none, "p"⟩, []) :=
  ⟨(close_idempotent_on_closed fileLib0 closedFile0).1 rfl,
   (close_idempotent_on_closed fileLib0 openFile0).2 true ⟨0, none, "p"⟩
     [FileEvent.closeCall] rfl⟩

/-- C4 counterexample: a read request one byte above the 131072 cap on a
concrete open stream raises FileError, which is not the Ruby
ArgumentError class the claim names. -/
theorem oversized_read_not_arg_error_cex :
    (HDFS_File_read fileLib0 openFile0 (some 131073)).1 =
      Except.error RubyError.fileError ∧
    (HDFS_File_read_pos fileLib0 openFile0 0 (some 131073)).1 =
      Except.error RubyError.fileError ∧
    RubyError.fileError ≠ RubyError.argError :=
  ⟨rfl, rfl, by decide⟩

/-- C4 (amended): on every open Stream, a requested length strictly above
HDFS_DEFAULT_BUFFER_SIZE makes read and read_pos raise FileError (not
ArgumentError) without performing any native read. -/
theorem oversized_read_file_error (lib : NativeFileLib) (data : FileData) (f : Nat)
    (hf : data.file = some f) (len : Int) (hl : HDFS_DEFAULT_BUFFER_SIZE < len)
    (pos : Int) :
    HDFS_File_read lib data (some len) =
      (Except.error RubyError.fileError, data, []) ∧
    HDFS_File_read_pos lib data pos (some len) =
      (Except.error RubyError.fileError, data, []) := by
  constructor
  · simp [HDFS_File_read, hf, hl]
  · simp [HDFS_File_read_pos, hf, hl]

/-- C4 witness: the oversized request 131073 on a concrete open stream. -/
theorem oversized_read_file_error_witness :
    HDFS_File_read fileLib0 openFile0 (some 131073) =
      (Except.error RubyError.fileError, openFile0, []) ∧
    HDFS_File_read_pos fileLib0 openFile0 7 (some 131073) =
      (Except.error RubyError.fileError, openFile0, []) :=
  oversized_read_file_error fileLib0 openFile0 1 rfl 131073 (by decide) 7

/-- C10: if the native close fails with the -1 sentinel on an open Stream,
close raises FileError and leaves the struct — in particular its non-NULL
handle — unchanged, so the Stream is still in the Open state. -/
theorem failed_close_leaves_open (lib : NativeFileLib) (data : FileData) (f : Nat)
    (hf : data.file = some f) (hc : lib.hdfsCloseFile data.fs f = -1) :
    HDFS_File_close lib data =
      (Except.error RubyError.fileError, data, [FileEvent.closeCall]) := by
  simp [HDFS_File_close, hf, hc]

/-- C10 witness: a failing native close on a concrete open stream. -/
theorem failed_close_leaves_open_witness :
    HDFS_File_close failCloseLib openFile0 =
      (Except.error RubyError.fileError, openFile0, [FileEvent.closeCall]) :=
  failed_close_leaves_open failCloseLib openFile0 1 rfl rfl

/-! ## Theorems for the Connection wrapper (file_system.c, hdfs.c) -/

/-- C7: on a Connection whose native handle is NULL, every path and
namespace operation — stat, ls, mkdir, rm, rename, cp, mv, chmod, chown,
chgrp, set_replication, cd, cwd, utime, capacity, used,
default_block_size (also its at-path variant) and get_hosts, and open —
raises NotConnectedError, leaves the struct unchanged and performs no
native call. -/
theorem null_handle_ops_raise_not_connected (lib : NativeHdfsLib) (data : FSData)
    (h : data.fs = none) (path path2 owner group : String)
    (recursive : Option Bool) (mode : Option Nat) (to_fs : ToFS)
    (repl : Option Int) (options : RubyOptions) (start length : Int)
    (omode : Option String) (bs rp bl : Option Int) :
    HDFS_File_System_stat lib data path =
      (Except.error RubyError.notConnectedError, data, []) ∧
    HDFS_File_System_ls lib data path =
      (Except.error RubyError.notConnectedError, data, []) ∧
    HDFS_File_System_mkdir lib data path =
      (Except.error RubyError.notConnectedError, data, []) ∧
    HDFS_File_System_rm lib data path recursive =
      (Except.error RubyError.notConnectedError, data, []) ∧
    HDFS_File_System_rename lib data path path2 =
      (Except.error RubyError.notConnectedError, data, []) ∧
    HDFS_File_System_cp lib data path path2 to_fs =
      (Except.error RubyError.notConnectedError, data, []) ∧
    HDFS_File_System_mv lib data path path2 to_fs =
      (Except.error RubyError.notConnectedError, data, []) ∧
    HDFS_File_System_chmod lib data path mode =
      (Except.error RubyError.notConnectedError, data, []) ∧
    HDFS_File_System_chown lib data path owner =
      (Except.error RubyError.notConnectedError, data, []) ∧
    HDFS_File_System_chgrp lib data path group =
      (Except.error RubyError.notConnectedError, data, []) ∧
    HDFS_File_System_set_replication lib data path repl =
      (Except.error RubyError.notConnectedError, data, []) ∧
    HDFS_File_System_cd lib data path =
      (Except.error RubyError.notConnectedError, data, []) ∧
    HDFS_File_System_cwd lib data =
      (Except.error RubyError.notConnectedError, data, []) ∧
    HDFS_File_System_utime lib data path options =
      (Except.error RubyError.notConnectedError, data, []) ∧
    HDFS_File_System_capacity lib data =
      (Except.error RubyError.notConnectedError, data, []) ∧
    HDFS_File_System_used lib data =
      (Except.error RubyError.notConnectedError, data, []) ∧
    HDFS_File_System_default_block_size lib data =
      (Except.error RubyError.notConnectedError, data, []) ∧
    HDFS_File_System_default_block_size_at_path lib data path =
      (Except.error RubyError.notConnectedError, data, []) ∧
    HDFS_File_System_get_hosts lib data path start length =
      (Except.error RubyError.notConnectedError, data, []) ∧
    HDFS_File_System_open lib data path omode bs rp bl =
      (Except.error RubyError.notConnectedError, data, []) := by
  obtain ⟨fs⟩ := data
  have hf : fs = none := h
  subst hf
  exact ⟨rfl, rfl, rfl, rfl, rfl, rfl, rfl, rfl, rfl, rfl, rfl, rfl, rfl, rfl,
    rfl, rfl, rfl, rfl, rfl, rfl⟩

/-- C7 witness: the twenty operations evaluated on a concrete
disconnected Connection. -/
theorem null_handle_ops_witness :
    HDFS_File_System_stat fsLib0 ⟨none⟩ "a" =
      (Except.error RubyError.notConnectedError, ⟨none⟩, []) ∧
    HDFS_File_System_ls fsLib0 ⟨none⟩ "a" =
      (Except.error RubyError.notConnectedError, ⟨none⟩, []) ∧
    HDFS_File_System_mkdir fsLib0 ⟨none⟩ "a" =
      (Except.error RubyError.notConnectedError, ⟨none⟩, []) ∧
    HDFS_File_System_rm fsLib0 ⟨none⟩ "a" none =
      (Except.error RubyError.notConnectedError, ⟨none⟩, []) ∧
    HDFS_File_System_rename fsLib0 ⟨none⟩ "a" "b" =
      (Except.error RubyError.notConnectedError, ⟨none⟩, []) ∧
    HDFS_File_System_cp fsLib0 ⟨none⟩ "a" "b" ToFS.noFS =
      (Except.error RubyError.notConnectedError, ⟨none⟩, []) ∧
    HDFS_File_System_mv fsLib0 ⟨none⟩ "a" "b" ToFS.noFS =
      (Except.error RubyError.notConnectedError, ⟨none⟩, []) ∧
    HDFS_File_System_chmod fsLib0 ⟨none⟩ "a" none =
      (Except.error RubyError.notConnectedError, ⟨none⟩, []) ∧
    HDFS_File_System_chown fsLib0 ⟨none⟩ "a" "u" =
      (Except.error RubyError.notConnectedError, ⟨none⟩, []) ∧
    HDFS_File_System_chgrp fsLib0 ⟨none⟩ "a" "g" =
      (Except.error RubyError.notConnectedError, ⟨none⟩, []) ∧
    HDFS_File_System_set_replication fsLib0 ⟨none⟩ "a" none =
      (Except.error RubyError.notConnectedError, ⟨none⟩, []) ∧
    HDFS_File_System_cd fsLib0 ⟨none⟩ "a" =
      (Except.error RubyError.notConnectedError, ⟨none⟩, []) ∧
    HDFS_File_System_cwd fsLib0 ⟨none⟩ =
      (Except.error RubyError.notConnectedError, ⟨none⟩, []) ∧
    HDFS_File_System_utime fsLib0 ⟨none⟩ "a" RubyOptions.noOpts =
      (Except.error RubyError.notConnectedError, ⟨none⟩, []) ∧
    HDFS_File_System_capacity fsLib0 ⟨none⟩ =
      (Except.error RubyError.notConnectedError, ⟨none⟩, []) ∧
    HDFS_File_System_used fsLib0 ⟨none⟩ =
      (Except.error RubyError.notConnectedError, ⟨none⟩, []) ∧
    HDFS_File_System_default_block_size fsLib0 ⟨none⟩ =
      (Except.error RubyError.notConnectedError, ⟨none⟩, []) ∧
    HDFS_File_System_default_block_size_at_path fsLib0 ⟨none⟩ "a" =
      (Except.error RubyError.notConnectedError, ⟨none⟩, []) ∧
    HDFS_File_System_get_hosts fsLib0 ⟨none⟩ "a" 0 1 =
      (Except.error RubyError.notConnectedError, ⟨none⟩, []) ∧
    HDFS_File_System_open fsLib0 ⟨none⟩ "a" (some "r") none none none =
      (Except.error RubyError.notConnectedError, ⟨none⟩, []) :=
  null_handle_ops_raise_not_connected fsLib0 ⟨none⟩ rfl "a" "b" "u" "g"
    none none ToFS.noFS none RubyOptions.noOpts 0 1 (some "r") none none none

/-- C8: disconnect always returns successfully (Qnil, no error path) and
leaves the handle NULL; on an already-disconnected Connection it is a
no-op performing no native call. -/
theorem disconnect_idempotent_no_error (lib : NativeHdfsLib) (data : FSData) :
    ((HDFS_File_System_disconnect lib data).1 = Except.ok () ∧
      ((HDFS_File_System_disconnect lib data).2.1).fs = none) ∧
    (data.fs = none →
      HDFS_File_System_disconnect lib data = (Except.ok (), data, [])) := by
  obtain ⟨fs⟩ := data
  cases fs with
  | none => exact ⟨⟨rfl, rfl⟩, fun _ => rfl⟩
  | some v =>
    refine ⟨⟨rfl, rfl⟩, fun hcon => ?_⟩
    exact Option.noConfusion hcon

/-- C8 witness: disconnect evaluated on a concrete disconnected
Connection. -/
theorem disconnect_idempotent_witness :
    HDFS_File_System_disconnect fsLib0 ⟨none⟩ = (Except.ok (), ⟨none⟩, []) :=
  (disconnect_idempotent_no_error fsLib0 ⟨none⟩).2 rfl

/-- C9: on a connected Connection, open with a supplied mode string other
than r, w or a raises Ruby ArgumentError and performs no native open. -/
theorem open_bad_mode_arg_error (lib : NativeHdfsLib) (data : FSData) (fs : Nat)
    (h : data.fs = some fs) (path m : String) (hr : m ≠ "r") (hw : m ≠ "w")
    (ha : m ≠ "a") (bs rp bl : Option Int) :
    HDFS_File_System_open lib data path (some m) bs rp bl =
      (Except.error RubyError.argError, data, []) := by
  simp [HDFS_File_System_open, h, hr, hw, ha]

/-- C9 witness: open with the unrecognized mode x on a concrete connected
Connection. -/
theorem open_bad_mode_arg_error_witness :
    HDFS_File_System_open fsLib0 ⟨some 3⟩ "a" (some "x") none none none =
      (Except.error RubyError.argError, ⟨some 3⟩, []) :=
  open_bad_mode_arg_error fsLib0 ⟨some 3⟩ 3 rfl "a" "x" (by decide) (by decide)
    (by decide) none none none

/-- C5: evaluated at a missing path (the native stat and list calls
signal failure), the legacy list_directory of hdfs.c raises the generic
DFSException although its own doc comment promises DoesNotExistError;
the current stat and ls of file_system.c likewise raise DFSException;
only the legacy stat raises the dedicated DoesNotExistError. -/
theorem missing_path_error_kinds :
    (Legacy.HDFS_File_System_list_directory legacyLibMissing ⟨some 7⟩ "d").1 =
      Except.error RubyError.dfsException ∧
    (Legacy.HDFS_File_System_stat_legacy legacyLibMissing ⟨some 7⟩ "d").1 =
      Except.error RubyError.doesNotExistError ∧
    (HDFS_File_System_stat fsLibMissing ⟨some 7⟩ "d").1 =
      Except.error RubyError.dfsException ∧
    (HDFS_File_System_ls fsLibMissing ⟨some 7⟩ "d").1 =
      Except.error RubyError.dfsException ∧
    RubyError.dfsException ≠ RubyError.doesNotExistError :=
  ⟨rfl, rfl, rfl, rfl, by decide⟩

end RubyHdfs
